import Mathlib

/-!
Shallow embedding of `src/main.py` (BigDataCorpAPI row-enrichment script).

Python values flowing through the script are JSON-decoded data; they are
modeled by the `JSON` type below (numbers restricted to integers — no field
of interest carries fractional values).  Python runtime errors that the
script can raise or catch are modeled by `PyExc`; fallible Python
expressions become `Except PyExc` computations.
-/

/-- The Python exception classes that `src/main.py` can raise or catch. -/
inductive PyExc where
  | jsonDecodeError
  | connectionError
  | indexError
  | keyError
  | typeError
  | valueError
  | attributeError
  | stopIteration
deriving DecidableEq, Repr

/-- A JSON-decoded Python value (`json.loads` output): `None`, `bool`, `int`
(fractional numbers are outside the modeled subset), `str`, `list`, `dict`.
Objects are association lists in insertion order with unique keys, matching
Python `dict` iteration order. -/
inductive JSON where
  | null
  | bool (b : Bool)
  | num (n : Int)
  | str (s : String)
  | arr (elems : List JSON)
  | obj (fields : List (String × JSON))
deriving Repr

/-- The double-quote character. -/
def dqChar : Char := Char.ofNat 34

/-- The single-quote character. -/
def sqChar : Char := Char.ofNat 39

/-- The opening-brace character. -/
def lbraceChar : Char := Char.ofNat 123

/-- The closing-brace character. -/
def rbraceChar : Char := Char.ofNat 125

/-- `dict` insertion semantics: a repeated key keeps its original position
but takes the latest value (Python `json` keeps the last duplicate). -/
def objInsert : List (String × JSON) → String → JSON → List (String × JSON)
  | [], k, v => [(k, v)]
  | (k', v') :: rest, k, v =>
    if k' = k then (k', v) :: rest else (k', v') :: objInsert rest k v

/-- Drop leading JSON whitespace. -/
def skipWs : List Char → List Char
  | c :: cs =>
    if c = ' ' ∨ c = '\t' ∨ c = '\n' ∨ c = '\r' then skipWs cs else c :: cs
  | [] => []

/-- Parse the body of a JSON string literal (after the opening quote),
accumulating characters until the closing quote.  Escapes modeled:
`\"`, `\\`, `\/`, `\n`, `\t`, `\r`; other escapes (`\u`, `\b`, `\f`) are
outside the modeled subset and fail. -/
def parseStrBody (acc : List Char) : List Char → Option (String × List Char)
  | [] => none
  | c :: cs =>
    if c = dqChar then some (String.mk acc.reverse, cs)
    else if c = '\\' then
      match cs with
      | [] => none
      | e :: cs2 =>
        if e = dqChar then parseStrBody (dqChar :: acc) cs2
        else if e = '\\' then parseStrBody ('\\' :: acc) cs2
        else if e = '/' then parseStrBody ('/' :: acc) cs2
        else if e = 'n' then parseStrBody ('\n' :: acc) cs2
        else if e = 't' then parseStrBody ('\t' :: acc) cs2
        else if e = 'r' then parseStrBody ('\r' :: acc) cs2
        else none
    else parseStrBody (c :: acc) cs

/-- Consume a maximal run of decimal digits, accumulating their value. -/
def digitsToNat (acc : Nat) : List Char → Nat × List Char
  | c :: cs =>
    if c.isDigit then digitsToNat (acc * 10 + (c.toNat - 48)) cs else (acc, c :: cs)
  | [] => (acc, [])

/-- Parse a JSON integer numeral (optional minus sign then digits).
Fractional and exponent forms are outside the modeled subset. -/
def parseNum : List Char → Option (JSON × List Char)
  | '-' :: c :: cs =>
    if c.isDigit then
      let p := digitsToNat 0 (c :: cs)
      some (JSON.num (-(p.1 : Int)), p.2)
    else none
  | c :: cs =>
    if c.isDigit then
      let p := digitsToNat 0 (c :: cs)
      some (JSON.num (p.1 : Int), p.2)
    else none
  | [] => none

mutual

/-- Fuel-indexed recursive-descent parser for one JSON value. -/
def parseVal : Nat → List Char → Option (JSON × List Char)
  | 0, _ => none
  | f + 1, cs =>
    match skipWs cs with
    | [] => none
    | c :: cs' =>
      if c = dqChar then
        match parseStrBody [] cs' with
        | some (s, r) => some (JSON.str s, r)
        | none => none
      else if c = lbraceChar then parseObjBody f cs'
      else if c = '[' then parseArrBody f cs'
      else if c = 'n' then
        match cs' with
        | 'u' :: 'l' :: 'l' :: r => some (JSON.null, r)
        | _ => none
      else if c = 't' then
        match cs' with
        | 'r' :: 'u' :: 'e' :: r => some (JSON.bool true, r)
        | _ => none
      else if c = 'f' then
        match cs' with
        | 'a' :: 'l' :: 's' :: 'e' :: r => some (JSON.bool false, r)
        | _ => none
      else parseNum (c :: cs')

/-- Parse an object after its opening brace. -/
def parseObjBody : Nat → List Char → Option (JSON × List Char)
  | 0, _ => none
  | f + 1, cs =>
    match skipWs cs with
    | [] => none
    | c :: cs' =>
      if c = rbraceChar then some (JSON.obj [], cs')
      else parseFields f [] (c :: cs')

/-- Parse the members of a non-empty object. -/
def parseFields : Nat → List (String × JSON) → List Char → Option (JSON × List Char)
  | 0, _, _ => none
  | f + 1, acc, cs =>
    match skipWs cs with
    | [] => none
    | c :: cs' =>
      if c = dqChar then
        match parseStrBody [] cs' with
        | none => none
        | some (k, r1) =>
          match skipWs r1 with
          | ':' :: r2 =>
            match parseVal f r2 with
            | none => none
            | some (v, r3) =>
              match skipWs r3 with
              | ',' :: r4 => parseFields f (objInsert acc k v) r4
              | d :: r4 =>
                if d = rbraceChar then some (JSON.obj (objInsert acc k v), r4)
                else none
              | [] => none
          | _ => none
      else none

/-- Parse an array after its opening bracket. -/
def parseArrBody : Nat → List Char → Option (JSON × List Char)
  | 0, _ => none
  | f + 1, cs =>
    match skipWs cs with
    | [] => none
    | c :: cs' =>
      if c = ']' then some (JSON.arr [], cs')
      else parseElems f [] (c :: cs')

/-- Parse the elements of a non-empty array. -/
def parseElems : Nat → List JSON → List Char → Option (JSON × List Char)
  | 0, _, _ => none
  | f + 1, acc, cs =>
    match parseVal f cs with
    | none => none
    | some (v, r1) =>
      match skipWs r1 with
      | ',' :: r2 => parseElems f (v :: acc) r2
      | ']' :: r2 => some (JSON.arr (v :: acc).reverse, r2)
      | _ => none

end

/-- Model of `json.loads`: parse the whole text as one JSON value; anything
else (in particular the empty string) raises `json.JSONDecodeError`. -/
def json_loads (s : String) : Except PyExc JSON :=
  match parseVal (s.length + 1) s.data with
  | some (v, rest) =>
    match skipWs rest with
    | [] => Except.ok v
    | _ :: _ => Except.error PyExc.jsonDecodeError
  | none => Except.error PyExc.jsonDecodeError

/-- Parsing the empty response text raises, as in Python. -/
theorem json_loads_empty_string : json_loads "" = Except.error PyExc.jsonDecodeError := by rfl

/-- Sanity check of the parser on a small document. -/
theorem json_loads_small_doc :
    json_loads (String.mk
      [lbraceChar, dqChar, 'a', dqChar, ':', ' ', '[', '1', ',', ' ', '-', '2', ']', rbraceChar]) =
      Except.ok (JSON.obj [("a", JSON.arr [JSON.num 1, JSON.num (-2)])]) := by rfl

mutual

/-- Python `repr` of a JSON-decoded value (string escaping not modeled:
the script only ever applies it to plain field values). -/
def pyRepr : JSON → String
  | JSON.null => "None"
  | JSON.bool true => "True"
  | JSON.bool false => "False"
  | JSON.num n => toString n
  | JSON.str s => String.singleton sqChar ++ s ++ String.singleton sqChar
  | JSON.arr xs => "[" ++ pyReprElems xs ++ "]"
  | JSON.obj fs => String.singleton lbraceChar ++ pyReprFields fs ++ String.singleton rbraceChar

/-- Comma-separated `repr`s of list elements. -/
def pyReprElems : List JSON → String
  | [] => ""
  | [x] => pyRepr x
  | x :: y :: rest => pyRepr x ++ ", " ++ pyReprElems (y :: rest)

/-- Comma-separated `'key': repr(value)` pairs of a dict. -/
def pyReprFields : List (String × JSON) → String
  | [] => ""
  | [(k, v)] => String.singleton sqChar ++ k ++ String.singleton sqChar ++ ": " ++ pyRepr v
  | (k, v) :: y :: rest =>
      String.singleton sqChar ++ k ++ String.singleton sqChar ++ ": " ++ pyRepr v ++ ", " ++
        pyReprFields (y :: rest)

end

/-- Python `str()` of a JSON-decoded value: identity on strings, `repr`-like
rendering otherwise. -/
def pyStr : JSON → String
  | JSON.str s => s
  | v => pyRepr v

/-- Python `x.get(key, default)`: defaulted dict lookup.  On a non-dict
value the attribute access itself raises `AttributeError` (lists, strings,
numbers, booleans and `None` have no `get` method). -/
def JSON.get (v : JSON) (key : String) (dflt : JSON) : Except PyExc JSON :=
  match v with
  | JSON.obj fields => Except.ok ((List.lookup key fields).getD dflt)
  | _ => Except.error PyExc.attributeError

/-- Python `x[0]`: first element of a list (or `IndexError` when empty),
first character of a string (or `IndexError`), `KeyError` on a dict (a
JSON-decoded dict only has string keys, never the integer key `0`), and
`TypeError` on non-subscriptable values. -/
def JSON.getItem0 (v : JSON) : Except PyExc JSON :=
  match v with
  | JSON.arr [] => Except.error PyExc.indexError
  | JSON.arr (x :: _) => Except.ok x
  | JSON.str s =>
    if s.isEmpty then Except.error PyExc.indexError
    else Except.ok (JSON.str (String.singleton s.front))
  | JSON.obj _ => Except.error PyExc.keyError
  | _ => Except.error PyExc.typeError

/-- Python truthiness of a JSON-decoded value. -/
def JSON.pyTruthy : JSON → Bool
  | JSON.null => false
  | JSON.bool b => b
  | JSON.num n => n ≠ 0
  | JSON.str s => ¬ s.isEmpty
  | JSON.arr xs => ¬ xs.isEmpty
  | JSON.obj fs => ¬ fs.isEmpty

/-- Numeric view used by Python `+`: `bool` is an `int` subtype. -/
def pyToIntOpt : JSON → Option Int
  | JSON.num n => some n
  | JSON.bool b => some (if b then 1 else 0)
  | _ => none

/-- Python `a + b` on JSON-decoded values: string and list concatenation,
integer/boolean addition; every other combination raises `TypeError`. -/
def pyAdd (a b : JSON) : Except PyExc JSON :=
  match a, b with
  | JSON.str x, JSON.str y => Except.ok (JSON.str (x ++ y))
  | JSON.arr x, JSON.arr y => Except.ok (JSON.arr (x ++ y))
  | _, _ =>
    match pyToIntOpt a, pyToIntOpt b with
    | some x, some y => Except.ok (JSON.num (x + y))
    | _, _ => Except.error PyExc.typeError

/-- Outcome of one HTTPS exchange inside `make_request`'s `try` block:
either the transport raised some exception (all exception classes are
caught uniformly by the bare `except Exception`, so their identity is not
modeled), or a response body was read and decoded as UTF-8 text. -/
inductive WireResult where
  | exn
  | ok (body : String)

/-- Model of one `BigDataCorpAPI` instance: the observable behavior of its
HTTPS connection as a function from (document, dataset) to the wire
outcome.  The constructor fields `base_url`, `token` and `token_id` only
shape the raw request bytes and are absorbed into this behavior. -/
def BigDataCorpAPI := String → String → WireResult

/-- `BigDataCorpAPI.make_request`: POST for (doc, dataset) and return the
response text; any exception is caught, logged, and turned into `""`. -/
def BigDataCorpAPI.make_request (api : BigDataCorpAPI) (doc dataset : String) : String :=
  match api doc dataset with
  | WireResult.ok body => body
  | WireResult.exn => ""

/-- Numeric value of a decimal digit character. -/
def digitVal (c : Char) : Nat := c.toNat - 48

/-- `strptime` `%Y`: exactly four decimal digits. -/
def parseYear4 : List Char → Option (Nat × List Char)
  | a :: b :: c :: d :: r =>
    if a.isDigit ∧ b.isDigit ∧ c.isDigit ∧ d.isDigit then
      some (digitVal a * 1000 + digitVal b * 100 + digitVal c * 10 + digitVal d, r)
    else none
  | _ => none

/-- One- or two-digit `strptime` field: like the CPython `_strptime` regex
alternations, try the two-digit form first (when its value is admissible),
then fall back to a single digit. -/
def parseNN (valid2 valid1 : Nat → Bool) : List Char → Option (Nat × List Char)
  | a :: b :: r =>
    if a.isDigit ∧ b.isDigit ∧ valid2 (digitVal a * 10 + digitVal b) then
      some (digitVal a * 10 + digitVal b, r)
    else if a.isDigit ∧ valid1 (digitVal a) then some (digitVal a, b :: r)
    else none
  | [a] => if a.isDigit ∧ valid1 (digitVal a) then some (digitVal a, []) else none
  | [] => none

/-- Gregorian leap year. -/
def isLeap (y : Nat) : Bool := (y % 4 = 0 ∧ y % 100 ≠ 0) ∨ y % 400 = 0

/-- Number of days in a month. -/
def daysInMonth (y m : Nat) : Nat :=
  if m = 2 then (if isLeap y then 29 else 28)
  else if m = 4 ∨ m = 6 ∨ m = 9 ∨ m = 11 then 30
  else 31

/-- Model of `datetime.strptime(s, "%Y-%m-%dT%H:%M:%SZ")`, returning the
date fields `(year, month, day)` on success and `none` where Python raises
`ValueError`: the whole string must match the format (literal `T`/`Z` also
match lowercase, as `_strptime` compiles its regex with `IGNORECASE`) and
the fields must form a valid `datetime` (year ≥ 1, day within the month,
second ≤ 59 — the regex alone would admit leap seconds 60/61 but the
`datetime` constructor rejects them). -/
def strptime_YmdHMSZ (s : String) : Option (Nat × Nat × Nat) :=
  match parseYear4 s.data with
  | none => none
  | some (y, r1) =>
    match r1 with
    | '-' :: r2 =>
      match parseNN (fun m => 1 ≤ m ∧ m ≤ 12) (fun m => 1 ≤ m) r2 with
      | none => none
      | some (m, r3) =>
        match r3 with
        | '-' :: r4 =>
          match parseNN (fun d => 1 ≤ d ∧ d ≤ 31) (fun d => 1 ≤ d) r4 with
          | none => none
          | some (d, r5) =>
            match r5 with
            | t :: r6 =>
              if t = 'T' ∨ t = 't' then
                match parseNN (fun h => h ≤ 23) (fun _ => true) r6 with
                | none => none
                | some (_, r7) =>
                  match r7 with
                  | ':' :: r8 =>
                    match parseNN (fun mi => mi ≤ 59) (fun _ => true) r8 with
                    | none => none
                    | some (_, r9) =>
                      match r9 with
                      | ':' :: r10 =>
                        match parseNN (fun se => se ≤ 61) (fun _ => true) r10 with
                        | none => none
                        | some (se, r11) =>
                          match r11 with
                          | z :: r12 =>
                            if (z = 'Z' ∨ z = 'z') ∧ r12 = [] ∧ 1 ≤ y ∧
                                d ≤ daysInMonth y m ∧ se ≤ 59 then
                              some (y, m, d)
                            else none
                          | [] => none
                      | _ => none
                  | _ => none
              else none
            | [] => none
        | _ => none
    | _ => none

/-- Zero-pad a number to two digits (`strftime` `%d`, `%m`). -/
def pad2 (n : Nat) : String := if n < 10 then "0" ++ toString n else toString n

/-- Zero-pad a number to four digits (`strftime` `%Y`). -/
def pad4 (n : Nat) : String :=
  if n < 10 then "000" ++ toString n
  else if n < 100 then "00" ++ toString n
  else if n < 1000 then "0" ++ toString n
  else toString n

/-- Model of `.strftime("%d/%m/%Y")` on the parsed date fields. -/
def strftime_dmY (ymd : Nat × Nat × Nat) : String :=
  pad2 ymd.2.2 ++ "/" ++ pad2 ymd.2.1 ++ "/" ++ pad4 ymd.1

/-- `get_rg`: fetch `basic_data`, take
`Result[0].BasicData.AlternativeIdNumbers` with defaulted lookups, and
return the value of its first key; `""` for a falsy (e.g. empty) mapping.
There is no `try`/`except` here: `json.loads` failures (in particular on
the `""` produced by a failed transport) and navigation errors propagate.
A truthy non-dict has no `.items()`, raising `AttributeError`; the
`StopIteration` arm is unreachable (an empty dict is falsy). -/
def get_rg (doc : String) (api : BigDataCorpAPI) : Except PyExc JSON := do
  let data ← json_loads (BigDataCorpAPI.make_request api doc "basic_data")
  let r ← JSON.get data "Result" (JSON.arr [JSON.obj []])
  let r0 ← JSON.getItem0 r
  let bd ← JSON.get r0 "BasicData" (JSON.obj [])
  let alternative_id ← JSON.get bd "AlternativeIdNumbers" (JSON.obj [])
  if alternative_id.pyTruthy then
    match alternative_id with
    | JSON.obj ((_, valor) :: _) => pure valor
    | JSON.obj [] => Except.error PyExc.stopIteration
    | _ => Except.error PyExc.attributeError
  else
    pure (JSON.str "")

/-- `get_email`: fetch `registration_data` and navigate
`Result[0].RegistrationData.Emails.Primary.EmailAddress` with defaulted
lookups inside a `try` that catches only `json.JSONDecodeError` and
`ConnectionError`. -/
def get_email (doc : String) (api : BigDataCorpAPI) : Except PyExc JSON :=
  let attempt : Except PyExc JSON := do
    let data ← json_loads (BigDataCorpAPI.make_request api doc "registration_data")
    let r ← JSON.get data "Result" (JSON.arr [JSON.obj []])
    let r0 ← JSON.getItem0 r
    let rd ← JSON.get r0 "RegistrationData" (JSON.obj [])
    let em ← JSON.get rd "Emails" (JSON.obj [])
    let pr ← JSON.get em "Primary" (JSON.obj [])
    JSON.get pr "EmailAddress" (JSON.str "")
  match attempt with
  | Except.ok email => Except.ok email
  | Except.error e =>
    if e = PyExc.jsonDecodeError ∨ e = PyExc.connectionError then Except.ok (JSON.str "")
    else Except.error e

/-- `get_telefone`: fetch `registration_data`, read
`Result[0].RegistrationData.Phones.<order>.{AreaCode,Number}` inside a
`try` that catches `IndexError`, `KeyError`, `TypeError` and
`json.JSONDecodeError` (setting both parts to `""`), then return
`areacode + number` — the addition happens after the `try`, so a
`TypeError` raised by `+` itself propagates. -/
def get_telefone (order doc : String) (api : BigDataCorpAPI) : Except PyExc JSON :=
  let attempt : Except PyExc (JSON × JSON) := do
    let data ← json_loads (BigDataCorpAPI.make_request api doc "registration_data")
    let r ← JSON.get data "Result" (JSON.arr [JSON.obj []])
    let r0 ← JSON.getItem0 r
    let rd ← JSON.get r0 "RegistrationData" (JSON.obj [])
    let phones ← JSON.get rd "Phones" (JSON.obj [])
    let p1 ← JSON.get phones order (JSON.obj [])
    let areacode ← JSON.get p1 "AreaCode" (JSON.str "")
    let p2 ← JSON.get phones order (JSON.obj [])
    let number ← JSON.get p2 "Number" (JSON.str "")
    pure (areacode, number)
  match attempt with
  | Except.ok p => pyAdd p.1 p.2
  | Except.error e =>
    if e = PyExc.indexError ∨ e = PyExc.keyError ∨ e = PyExc.typeError ∨
        e = PyExc.jsonDecodeError then
      pyAdd (JSON.str "") (JSON.str "")
    else Except.error e

/-- `get_sexo`: fetch `basic_data` and read `Result[0].BasicData.Gender`
with defaulted lookups inside a `try` that catches only
`json.JSONDecodeError` and `ConnectionError`. -/
def get_sexo (doc : String) (api : BigDataCorpAPI) : Except PyExc JSON :=
  let attempt : Except PyExc JSON := do
    let data ← json_loads (BigDataCorpAPI.make_request api doc "basic_data")
    let r ← JSON.get data "Result" (JSON.arr [JSON.obj []])
    let r0 ← JSON.getItem0 r
    let bd ← JSON.get r0 "BasicData" (JSON.obj [])
    JSON.get bd "Gender" (JSON.str "")
  match attempt with
  | Except.ok sexo => Except.ok sexo
  | Except.error e =>
    if e = PyExc.jsonDecodeError ∨ e = PyExc.connectionError then Except.ok (JSON.str "")
    else Except.error e

/-- `get_idade`: fetch `basic_data`, read `Result[0].BasicData.Age`
(default `None`), and return `str(idade)` when it is not `None`, else
`""`; catches only `json.JSONDecodeError` and `ConnectionError`. -/
def get_idade (doc : String) (api : BigDataCorpAPI) : Except PyExc JSON :=
  let attempt : Except PyExc JSON := do
    let data ← json_loads (BigDataCorpAPI.make_request api doc "basic_data")
    let r ← JSON.get data "Result" (JSON.arr [JSON.obj []])
    let r0 ← JSON.getItem0 r
    let bd ← JSON.get r0 "BasicData" (JSON.obj [])
    let idade ← JSON.get bd "Age" JSON.null
    match idade with
    | JSON.null => pure (JSON.str "")
    | v => pure (JSON.str (pyStr v))
  match attempt with
  | Except.ok s => Except.ok s
  | Except.error e =>
    if e = PyExc.jsonDecodeError ∨ e = PyExc.connectionError then Except.ok (JSON.str "")
    else Except.error e

/-- `get_dt_nasc`: fetch `basic_data`, read `Result[0].BasicData.BirthDate`
(default `None`); when truthy, parse it with
`strptime("%Y-%m-%dT%H:%M:%SZ")` and reformat with
`strftime("%d/%m/%Y")`; catches `json.JSONDecodeError`, `ConnectionError`
and `ValueError` (so a malformed date degrades to `""`), but a truthy
non-string `BirthDate` makes `strptime` raise an uncaught `TypeError`. -/
def get_dt_nasc (doc : String) (api : BigDataCorpAPI) : Except PyExc JSON :=
  let attempt : Except PyExc JSON := do
    let data ← json_loads (BigDataCorpAPI.make_request api doc "basic_data")
    let r ← JSON.get data "Result" (JSON.arr [JSON.obj []])
    let r0 ← JSON.getItem0 r
    let bd ← JSON.get r0 "BasicData" (JSON.obj [])
    let dt_nasc ← JSON.get bd "BirthDate" JSON.null
    if dt_nasc.pyTruthy then
      match dt_nasc with
      | JSON.str s =>
        match strptime_YmdHMSZ s with
        | some ymd => pure (JSON.str (strftime_dmY ymd))
        | none => Except.error PyExc.valueError
      | _ => Except.error PyExc.typeError
    else
      pure (JSON.str "")
  match attempt with
  | Except.ok s => Except.ok s
  | Except.error e =>
    if e = PyExc.jsonDecodeError ∨ e = PyExc.connectionError ∨ e = PyExc.valueError then
      Except.ok (JSON.str "")
    else Except.error e

/-- `FUNC_MAP`: the registry mapping a resolver-selector key to its Field
Resolver, in the source's literal order. -/
def FUNC_MAP : List (String × (String → BigDataCorpAPI → Except PyExc JSON)) :=
  [("RG", get_rg),
   ("EMAIL", get_email),
   ("SEXO", get_sexo),
   ("DT_NASC", get_dt_nasc),
   ("IDADE", get_idade)]

/-- A DataFrame row as seen by the fill functions: the `CPF` column (forced
to `str` dtype by `read_csv` and assumed present) plus the remaining cells,
keyed by column name; `none` models a missing value (`NaN`, for which
`pd.isna` is true), `some v` a present JSON-decoded value (note
`pd.isna("")` is false: an empty string counts as present). -/
structure Row where
  cpf : String
  cells : String → Option JSON

/-- The diagnostic prefix built by `preencher_registro_vazio`'s `print`:
`row['CPF'] + f' - {registro} ' + ': '` (pure `str` concatenation). -/
def printPrefix (cpf registro : String) : String :=
  cpf ++ " - " ++ registro ++ " " ++ ": "

/-- `preencher_registro_vazio`: when the cell named `registro` is missing,
look up resolver `funcao` in `FUNC_MAP`; if registered, call it twice —
once inside the diagnostic `print` (whose `+` raises `TypeError` if the
resolver result is not a string) and once for the returned value; with no
registered resolver, or with a present cell, return the cell unchanged. -/
def preencher_registro_vazio (row : Row) (registro funcao : String)
    (api : BigDataCorpAPI) : Except PyExc (Option JSON) :=
  if (row.cells registro).isNone then
    match List.lookup funcao FUNC_MAP with
    | some func => do
      let v1 ← func row.cpf api
      let _ ← pyAdd (JSON.str (printPrefix row.cpf registro)) v1
      let v2 ← func row.cpf api
      pure (some v2)
    | none => Except.ok (row.cells registro)
  else Except.ok (row.cells registro)

/-- Number of resolver invocations performed by `preencher_registro_vazio`
(each invocation issues exactly one HTTP request, since every resolver
calls `make_request` exactly once and `make_request` never raises): two
when the cell is missing and a registered resolver's first call and the
diagnostic `print` both succeed, one when the first call or the `print`
raises, zero otherwise. -/
def preencher_registro_vazio_calls (row : Row) (registro funcao : String)
    (api : BigDataCorpAPI) : Nat :=
  if (row.cells registro).isNone then
    match List.lookup funcao FUNC_MAP with
    | some func =>
      match func row.cpf api with
      | Except.error _ => 1
      | Except.ok v1 =>
        match pyAdd (JSON.str (printPrefix row.cpf registro)) v1 with
        | Except.error _ => 1
        | Except.ok _ => 2
    | none => 0
  else 0

/-- The tuple `order_map.get(order, ('', 1))` from
`preencher_telefone_vazio`: the `get_telefone` order string and the
`TELEFONE<n>` column index. -/
def order_map_get (order : String) : String × Nat :=
  (List.lookup order [("P", ("Primary", 1)), ("S", ("Secondary", 2))]).getD ("", 1)

/-- The concrete phone column name `f'TELEFONE{number}'`. -/
def telefoneCol (order : String) : String :=
  "TELEFONE" ++ toString (order_map_get order).2

/-- `preencher_telefone_vazio`: map the order tag through
`order_map` (default `('', 1)`), and when the matching `TELEFONE<n>` cell
is missing call `get_telefone` once (the `print` uses an f-string, which
never raises) and return its value; otherwise return the cell unchanged. -/
def preencher_telefone_vazio (row : Row) (order : String)
    (api : BigDataCorpAPI) : Except PyExc (Option JSON) :=
  let p := order_map_get order
  let telefone_col := "TELEFONE" ++ toString p.2
  if (row.cells telefone_col).isNone then do
    let telefone ← get_telefone p.1 row.cpf api
    pure (some telefone)
  else Except.ok (row.cells telefone_col)

/-- Number of `get_telefone` invocations performed by
`preencher_telefone_vazio` (each issues exactly one HTTP request): one when
the matching phone cell is missing, zero otherwise. -/
def preencher_telefone_vazio_calls (row : Row) (order : String)
    (_api : BigDataCorpAPI) : Nat :=
  let p := order_map_get order
  if (row.cells ("TELEFONE" ++ toString p.2)).isNone then 1 else 0

/-- An API instance whose every request hits a transport-level exception. -/
def apiExn : BigDataCorpAPI := fun _ _ => WireResult.exn

/-- An API instance answering every request with the same body text. -/
def apiConst (body : String) : BigDataCorpAPI := fun _ _ => WireResult.ok body

/-- Response text `{"Result": []}` (present-but-empty results list). -/
def bodyEmptyResult : String := "\x7b\"Result\": []\x7d"

/-- Response text `{}`. -/
def bodyEmptyObj : String := "\x7b\x7d"

/-- Response text `{"Result": [{}]}`. -/
def bodyResultEmptyElem : String := "\x7b\"Result\": [\x7b\x7d]\x7d"

/-- A row whose every target cell is present (the string "x"). -/
def rowFull : Row := ⟨"52998224725", fun _ => some (JSON.str "x")⟩

/-- A row whose every target cell is missing (`NaN`). -/
def rowNull : Row := ⟨"52998224725", fun _ => none⟩

/-- C1: for every row whose target-column cell is non-null, both fill
operations (`preencher_registro_vazio` and `preencher_telefone_vazio`)
return that existing value unchanged and invoke no resolver, hence make no
network call for that cell — non-null cells are never overwritten. -/
theorem C1_nonnull_cells_never_overwritten :
    (∀ (row : Row) (registro funcao : String) (api : BigDataCorpAPI) (v : JSON),
      row.cells registro = some v →
      preencher_registro_vazio row registro funcao api = Except.ok (some v) ∧
      preencher_registro_vazio_calls row registro funcao api = 0) ∧
    (∀ (row : Row) (order : String) (api : BigDataCorpAPI) (v : JSON),
      row.cells (telefoneCol order) = some v →
      preencher_telefone_vazio row order api = Except.ok (some v) ∧
      preencher_telefone_vazio_calls row order api = 0) := by
  constructor
  · intro row registro funcao api v h
    constructor
    · simp [preencher_registro_vazio, h]
    · simp [preencher_registro_vazio_calls, h]
  · intro row order api v h
    rw [telefoneCol] at h
    constructor
    · simp [preencher_telefone_vazio, h]
    · simp [preencher_telefone_vazio_calls, h]

/-- Witness for C1 at a concrete row, column and API. -/
theorem C1_nonnull_cells_never_overwritten_witness :
    (preencher_registro_vazio rowFull "RG" "RG" apiExn = Except.ok (some (JSON.str "x")) ∧
      preencher_registro_vazio_calls rowFull "RG" "RG" apiExn = 0) ∧
    (preencher_telefone_vazio rowFull "P" apiExn = Except.ok (some (JSON.str "x")) ∧
      preencher_telefone_vazio_calls rowFull "P" apiExn = 0) :=
  ⟨C1_nonnull_cells_never_overwritten.1 rowFull "RG" "RG" apiExn (JSON.str "x") rfl,
   C1_nonnull_cells_never_overwritten.2 rowFull "P" apiExn (JSON.str "x") rfl⟩

/-- C2 counterexample: on a transport-level exception, `make_request`
returns `""`, `json.loads("")` raises, and `get_rg` — which has no
`try`/`except` — propagates the JSON-decode error instead of returning
`""` as the claim states for every resolver. -/
theorem C2_counterexample_get_rg_raises :
    get_rg "52998224725" apiExn = Except.error PyExc.jsonDecodeError ∧
    (Except.error PyExc.jsonDecodeError : Except PyExc JSON) ≠ Except.ok (JSON.str "") := by
  exact ⟨rfl, by simp⟩

/-- C2 (amended): when every request for a document hits a transport-level
exception, `make_request` returns `""` and the resolvers `get_email`,
`get_telefone`, `get_sexo`, `get_idade` and `get_dt_nasc` degrade to `""`
without raising; `get_rg`, which has no exception handler, instead
propagates the `json.JSONDecodeError` produced by parsing `""`. -/
theorem C2_amended_transport_failure_degrades :
    ∀ (api : BigDataCorpAPI) (doc order : String),
      (∀ dataset, api doc dataset = WireResult.exn) →
      (∀ dataset, BigDataCorpAPI.make_request api doc dataset = "") ∧
      get_email doc api = Except.ok (JSON.str "") ∧
      get_telefone order doc api = Except.ok (JSON.str "") ∧
      get_sexo doc api = Except.ok (JSON.str "") ∧
      get_idade doc api = Except.ok (JSON.str "") ∧
      get_dt_nasc doc api = Except.ok (JSON.str "") ∧
      get_rg doc api = Except.error PyExc.jsonDecodeError := by
  intro api doc order h
  have hmr : ∀ dataset, BigDataCorpAPI.make_request api doc dataset = "" := by
    intro ds
    unfold BigDataCorpAPI.make_request
    rw [h ds]
  refine ⟨hmr, ?_, ?_, ?_, ?_, ?_, ?_⟩
  · unfold get_email; rw [hmr]; rfl
  · unfold get_telefone; rw [hmr]; rfl
  · unfold get_sexo; rw [hmr]; rfl
  · unfold get_idade; rw [hmr]; rfl
  · unfold get_dt_nasc; rw [hmr]; rfl
  · unfold get_rg; rw [hmr]; rfl

/-- Witness for C2 (amended) at a concrete always-failing API. -/
theorem C2_amended_transport_failure_degrades_witness :
    (∀ dataset, BigDataCorpAPI.make_request apiExn "52998224725" dataset = "") ∧
    get_email "52998224725" apiExn = Except.ok (JSON.str "") ∧
    get_telefone "Primary" "52998224725" apiExn = Except.ok (JSON.str "") ∧
    get_sexo "52998224725" apiExn = Except.ok (JSON.str "") ∧
    get_idade "52998224725" apiExn = Except.ok (JSON.str "") ∧
    get_dt_nasc "52998224725" apiExn = Except.ok (JSON.str "") ∧
    get_rg "52998224725" apiExn = Except.error PyExc.jsonDecodeError :=
  C2_amended_transport_failure_degrades apiExn "52998224725" "Primary" (fun _ => rfl)

/-- C3 counterexample: for a null target cell with a registered resolver,
`preencher_registro_vazio` invokes the resolver twice (once inside the
diagnostic `print`, once for the returned value) — not exactly once as
claimed — and each invocation performs one HTTP request. -/
theorem C3_counterexample_two_requests_per_null_cell :
    preencher_registro_vazio_calls rowNull "SEXO" "SEXO" apiExn = 2 ∧
    preencher_registro_vazio_calls rowNull "SEXO" "SEXO" apiExn ≠ 1 := by
  exact ⟨rfl, by decide⟩

/-- C3 (amended): for a row with a null target cell, the generic field
filler invokes the registered resolver exactly twice — once for the
diagnostic `print` and once for the returned value — whenever the resolver
returns a string (each invocation making one HTTP request, so non-phone
call volume is twice the number of null cells); the phone filler invokes
`get_telefone` exactly once per null phone cell. -/
theorem C3_amended_call_volume :
    (∀ (row : Row) (registro funcao : String) (api : BigDataCorpAPI)
        (func : String → BigDataCorpAPI → Except PyExc JSON) (s : String),
      row.cells registro = none →
      List.lookup funcao FUNC_MAP = some func →
      func row.cpf api = Except.ok (JSON.str s) →
      preencher_registro_vazio_calls row registro funcao api = 2) ∧
    (∀ (row : Row) (order : String) (api : BigDataCorpAPI),
      row.cells (telefoneCol order) = none →
      preencher_telefone_vazio_calls row order api = 1) := by
  constructor
  · intro row registro funcao api func s h hl hf
    simp [preencher_registro_vazio_calls, h, hl, hf, pyAdd]
  · intro row order api h
    rw [telefoneCol] at h
    simp [preencher_telefone_vazio_calls, h]

/-- Witness for C3 (amended) at a concrete row, resolver and API. -/
theorem C3_amended_call_volume_witness :
    preencher_registro_vazio_calls rowNull "SEXO" "SEXO" apiExn = 2 ∧
    preencher_telefone_vazio_calls rowNull "P" apiExn = 1 :=
  ⟨C3_amended_call_volume.1 rowNull "SEXO" "SEXO" apiExn get_sexo "" rfl rfl rfl,
   C3_amended_call_volume.2 rowNull "P" apiExn rfl⟩

/-- `Except` bind on a success, as a rewrite rule. -/
theorem excOkBind {α β : Type} (a : α) (f : α → Except PyExc β) :
    (Except.ok a >>= f) = f a := rfl

/-- `Except` bind on a raised exception, as a rewrite rule. -/
theorem excErrBind {α β : Type} (e : PyExc) (f : α → Except PyExc β) :
    ((Except.error e : Except PyExc α) >>= f) = Except.error e := rfl

/-- C4 counterexample: a response with a present-but-empty `"Result"` list
makes the `[0]` subscript raise `IndexError`, which neither `get_email`
nor `get_sexo` catches (they catch only `json.JSONDecodeError` and
`ConnectionError`), so the exception escapes the resolver instead of
yielding `""` as the claim states. -/
theorem C4_counterexample_empty_result_raises :
    get_email "52998224725" (apiConst bodyEmptyResult) = Except.error PyExc.indexError ∧
    get_sexo "52998224725" (apiConst bodyEmptyResult) = Except.error PyExc.indexError :=
  ⟨rfl, rfl⟩

/-- C4 (amended): `get_email` and `get_sexo` navigate
`Result[0].<Section>.<Field>` with default-valued lookups, so a missing
`"Result"` key, or a first result element missing its section, yields `""`
without raising; but the `[0]` subscript is not defaulted: a
present-but-empty `"Result"` list raises an uncaught `IndexError`. -/
theorem C4_amended_defaulted_navigation :
    (∀ (api : BigDataCorpAPI) (doc : String) (js : List (String × JSON)),
      json_loads (BigDataCorpAPI.make_request api doc "registration_data") =
        Except.ok (JSON.obj js) →
      List.lookup "Result" js = none →
      get_email doc api = Except.ok (JSON.str "")) ∧
    (∀ (api : BigDataCorpAPI) (doc : String) (js : List (String × JSON)),
      json_loads (BigDataCorpAPI.make_request api doc "basic_data") =
        Except.ok (JSON.obj js) →
      List.lookup "Result" js = none →
      get_sexo doc api = Except.ok (JSON.str "")) ∧
    (∀ (api : BigDataCorpAPI) (doc : String) (js r0 : List (String × JSON))
        (rest : List JSON),
      json_loads (BigDataCorpAPI.make_request api doc "registration_data") =
        Except.ok (JSON.obj js) →
      List.lookup "Result" js = some (JSON.arr (JSON.obj r0 :: rest)) →
      List.lookup "RegistrationData" r0 = none →
      get_email doc api = Except.ok (JSON.str "")) ∧
    (∀ (api : BigDataCorpAPI) (doc : String) (js r0 : List (String × JSON))
        (rest : List JSON),
      json_loads (BigDataCorpAPI.make_request api doc "basic_data") =
        Except.ok (JSON.obj js) →
      List.lookup "Result" js = some (JSON.arr (JSON.obj r0 :: rest)) →
      List.lookup "BasicData" r0 = none →
      get_sexo doc api = Except.ok (JSON.str "")) ∧
    (∀ (api : BigDataCorpAPI) (doc : String) (js : List (String × JSON)),
      json_loads (BigDataCorpAPI.make_request api doc "registration_data") =
        Except.ok (JSON.obj js) →
      List.lookup "Result" js = some (JSON.arr []) →
      get_email doc api = Except.error PyExc.indexError) ∧
    (∀ (api : BigDataCorpAPI) (doc : String) (js : List (String × JSON)),
      json_loads (BigDataCorpAPI.make_request api doc "basic_data") =
        Except.ok (JSON.obj js) →
      List.lookup "Result" js = some (JSON.arr []) →
      get_sexo doc api = Except.error PyExc.indexError) := by
  refine ⟨?_, ?_, ?_, ?_, ?_, ?_⟩
  · intro api doc js hdec hres
    simp [get_email, hdec, hres, excOkBind, excErrBind, JSON.get, JSON.getItem0, List.lookup]
  · intro api doc js hdec hres
    simp [get_sexo, hdec, hres, excOkBind, excErrBind, JSON.get, JSON.getItem0, List.lookup]
  · intro api doc js r0 rest hdec hres hr0
    simp [get_email, hdec, hres, hr0, excOkBind, excErrBind, JSON.get, JSON.getItem0, List.lookup]
  · intro api doc js r0 rest hdec hres hr0
    simp [get_sexo, hdec, hres, hr0, excOkBind, excErrBind, JSON.get, JSON.getItem0, List.lookup]
  · intro api doc js hdec hres
    simp [get_email, hdec, hres, excOkBind, excErrBind, JSON.get, JSON.getItem0]
  · intro api doc js hdec hres
    simp [get_sexo, hdec, hres, excOkBind, excErrBind, JSON.get, JSON.getItem0]

/-- Witness for C4 (amended) at concrete response bodies. -/
theorem C4_amended_defaulted_navigation_witness :
    get_email "52998224725" (apiConst bodyEmptyObj) = Except.ok (JSON.str "") ∧
    get_sexo "52998224725" (apiConst bodyEmptyObj) = Except.ok (JSON.str "") ∧
    get_email "52998224725" (apiConst bodyResultEmptyElem) = Except.ok (JSON.str "") ∧
    get_sexo "52998224725" (apiConst bodyResultEmptyElem) = Except.ok (JSON.str "") ∧
    get_email "1" (apiConst bodyEmptyResult) = Except.error PyExc.indexError ∧
    get_sexo "1" (apiConst bodyEmptyResult) = Except.error PyExc.indexError :=
  ⟨C4_amended_defaulted_navigation.1 _ _ [] rfl rfl,
   C4_amended_defaulted_navigation.2.1 _ _ [] rfl rfl,
   C4_amended_defaulted_navigation.2.2.1 _ _ [("Result", JSON.arr [JSON.obj []])] [] []
     rfl rfl rfl,
   C4_amended_defaulted_navigation.2.2.2.1 _ _ [("Result", JSON.arr [JSON.obj []])] [] []
     rfl rfl rfl,
   C4_amended_defaulted_navigation.2.2.2.2.1 _ _ [("Result", JSON.arr [])] rfl rfl,
   C4_amended_defaulted_navigation.2.2.2.2.2 _ _ [("Result", JSON.arr [])] rfl rfl⟩

/-- Response text with `BasicData.BirthDate = "1990-05-20T00:00:00Z"`. -/
def bodyBirthGood : String :=
  "\x7b\"Result\": [\x7b\"BasicData\": \x7b\"BirthDate\": \"1990-05-20T00:00:00Z\"\x7d\x7d]\x7d"

/-- Response text whose `BasicData` has no `BirthDate` key. -/
def bodyBirthAbsent : String := "\x7b\"Result\": [\x7b\"BasicData\": \x7b\x7d\x7d]\x7d"

/-- Response text with `BasicData.BirthDate = null`. -/
def bodyBirthNull : String :=
  "\x7b\"Result\": [\x7b\"BasicData\": \x7b\"BirthDate\": null\x7d\x7d]\x7d"

/-- Response text with the malformed `BasicData.BirthDate = "not-a-date"`. -/
def bodyBirthBad : String :=
  "\x7b\"Result\": [\x7b\"BasicData\": \x7b\"BirthDate\": \"not-a-date\"\x7d\x7d]\x7d"

/-- C5: `get_dt_nasc` reformats a well-formed `BasicData.BirthDate` of
`"1990-05-20T00:00:00Z"` (format `YYYY-MM-DDThh:mm:ssZ`) to
`"20/05/1990"` (`DD/MM/YYYY`); an absent or `null` `BirthDate` yields
`""`; a malformed one (e.g. `"not-a-date"`) yields `""` without raising
(the `ValueError` from `strptime` is caught). -/
theorem C5_birth_date_resolution :
    (∀ (api : BigDataCorpAPI) (doc : String) (js r0 bd : List (String × JSON))
        (rest : List JSON),
      json_loads (BigDataCorpAPI.make_request api doc "basic_data") =
        Except.ok (JSON.obj js) →
      List.lookup "Result" js = some (JSON.arr (JSON.obj r0 :: rest)) →
      List.lookup "BasicData" r0 = some (JSON.obj bd) →
      List.lookup "BirthDate" bd = some (JSON.str "1990-05-20T00:00:00Z") →
      get_dt_nasc doc api = Except.ok (JSON.str "20/05/1990")) ∧
    (∀ (api : BigDataCorpAPI) (doc : String) (js r0 bd : List (String × JSON))
        (rest : List JSON),
      json_loads (BigDataCorpAPI.make_request api doc "basic_data") =
        Except.ok (JSON.obj js) →
      List.lookup "Result" js = some (JSON.arr (JSON.obj r0 :: rest)) →
      List.lookup "BasicData" r0 = some (JSON.obj bd) →
      List.lookup "BirthDate" bd = none →
      get_dt_nasc doc api = Except.ok (JSON.str "")) ∧
    (∀ (api : BigDataCorpAPI) (doc : String) (js r0 bd : List (String × JSON))
        (rest : List JSON),
      json_loads (BigDataCorpAPI.make_request api doc "basic_data") =
        Except.ok (JSON.obj js) →
      List.lookup "Result" js = some (JSON.arr (JSON.obj r0 :: rest)) →
      List.lookup "BasicData" r0 = some (JSON.obj bd) →
      List.lookup "BirthDate" bd = some JSON.null →
      get_dt_nasc doc api = Except.ok (JSON.str "")) ∧
    (∀ (api : BigDataCorpAPI) (doc : String) (js r0 bd : List (String × JSON))
        (rest : List JSON),
      json_loads (BigDataCorpAPI.make_request api doc "basic_data") =
        Except.ok (JSON.obj js) →
      List.lookup "Result" js = some (JSON.arr (JSON.obj r0 :: rest)) →
      List.lookup "BasicData" r0 = some (JSON.obj bd) →
      List.lookup "BirthDate" bd = some (JSON.str "not-a-date") →
      get_dt_nasc doc api = Except.ok (JSON.str "")) := by
  refine ⟨?_, ?_, ?_, ?_⟩ <;>
  · intro api doc js r0 bd rest hdec hres hbd hdt
    simp only [get_dt_nasc, hdec, hres, hbd, hdt, excOkBind, excErrBind, JSON.get,
      JSON.getItem0, Option.getD]
    rfl

/-- Witness for C5 at concrete response bodies. -/
theorem C5_birth_date_resolution_witness :
    get_dt_nasc "52998224725" (apiConst bodyBirthGood) = Except.ok (JSON.str "20/05/1990") ∧
    get_dt_nasc "52998224725" (apiConst bodyBirthAbsent) = Except.ok (JSON.str "") ∧
    get_dt_nasc "52998224725" (apiConst bodyBirthNull) = Except.ok (JSON.str "") ∧
    get_dt_nasc "52998224725" (apiConst bodyBirthBad) = Except.ok (JSON.str "") :=
  ⟨C5_birth_date_resolution.1 _ _
     [("Result", JSON.arr [JSON.obj [("BasicData",
        JSON.obj [("BirthDate", JSON.str "1990-05-20T00:00:00Z")])]])]
     [("BasicData", JSON.obj [("BirthDate", JSON.str "1990-05-20T00:00:00Z")])]
     [("BirthDate", JSON.str "1990-05-20T00:00:00Z")] [] rfl rfl rfl rfl,
   C5_birth_date_resolution.2.1 _ _
     [("Result", JSON.arr [JSON.obj [("BasicData", JSON.obj [])]])]
     [("BasicData", JSON.obj [])] [] [] rfl rfl rfl rfl,
   C5_birth_date_resolution.2.2.1 _ _
     [("Result", JSON.arr [JSON.obj [("BasicData", JSON.obj [("BirthDate", JSON.null)])]])]
     [("BasicData", JSON.obj [("BirthDate", JSON.null)])]
     [("BirthDate", JSON.null)] [] rfl rfl rfl rfl,
   C5_birth_date_resolution.2.2.2 _ _
     [("Result", JSON.arr [JSON.obj [("BasicData",
        JSON.obj [("BirthDate", JSON.str "not-a-date")])]])]
     [("BasicData", JSON.obj [("BirthDate", JSON.str "not-a-date")])]
     [("BirthDate", JSON.str "not-a-date")] [] rfl rfl rfl rfl⟩

/-- Response text with `BasicData.AlternativeIdNumbers = {"SSP": "12345"}`. -/
def bodyRgSSP : String :=
  "\x7b\"Result\": [\x7b\"BasicData\": \x7b\"AlternativeIdNumbers\": \x7b\"SSP\": \"12345\"\x7d\x7d\x7d]\x7d"

/-- Response text with `BasicData.AlternativeIdNumbers = {}`. -/
def bodyRgEmptyMap : String :=
  "\x7b\"Result\": [\x7b\"BasicData\": \x7b\"AlternativeIdNumbers\": \x7b\x7d\x7d\x7d]\x7d"

/-- C6: `get_rg` returns the value of the first key of
`BasicData.AlternativeIdNumbers` (key name discarded) — in particular
`{"SSP": "12345"}` yields `"12345"` — and an empty mapping yields `""`. -/
theorem C6_rg_resolution :
    (∀ (api : BigDataCorpAPI) (doc : String) (js r0 bd m : List (String × JSON))
        (rest : List JSON) (k : String) (v : JSON),
      json_loads (BigDataCorpAPI.make_request api doc "basic_data") =
        Except.ok (JSON.obj js) →
      List.lookup "Result" js = some (JSON.arr (JSON.obj r0 :: rest)) →
      List.lookup "BasicData" r0 = some (JSON.obj bd) →
      List.lookup "AlternativeIdNumbers" bd = some (JSON.obj ((k, v) :: m)) →
      get_rg doc api = Except.ok v) ∧
    (∀ (api : BigDataCorpAPI) (doc : String) (js r0 bd : List (String × JSON))
        (rest : List JSON),
      json_loads (BigDataCorpAPI.make_request api doc "basic_data") =
        Except.ok (JSON.obj js) →
      List.lookup "Result" js = some (JSON.arr (JSON.obj r0 :: rest)) →
      List.lookup "BasicData" r0 = some (JSON.obj bd) →
      List.lookup "AlternativeIdNumbers" bd = some (JSON.obj []) →
      get_rg doc api = Except.ok (JSON.str "")) := by
  constructor
  · intro api doc js r0 bd m rest k v hdec hres hbd haid
    simp only [get_rg, hdec, hres, hbd, haid, excOkBind, excErrBind, JSON.get,
      JSON.getItem0, Option.getD]
    rfl
  · intro api doc js r0 bd rest hdec hres hbd haid
    simp only [get_rg, hdec, hres, hbd, haid, excOkBind, excErrBind, JSON.get,
      JSON.getItem0, Option.getD]
    rfl

/-- Witness for C6 at concrete response bodies. -/
theorem C6_rg_resolution_witness :
    get_rg "52998224725" (apiConst bodyRgSSP) = Except.ok (JSON.str "12345") ∧
    get_rg "52998224725" (apiConst bodyRgEmptyMap) = Except.ok (JSON.str "") :=
  ⟨C6_rg_resolution.1 _ _
     [("Result", JSON.arr [JSON.obj [("BasicData",
        JSON.obj [("AlternativeIdNumbers", JSON.obj [("SSP", JSON.str "12345")])])]])]
     [("BasicData", JSON.obj [("AlternativeIdNumbers", JSON.obj [("SSP", JSON.str "12345")])])]
     [("AlternativeIdNumbers", JSON.obj [("SSP", JSON.str "12345")])] [] []
     "SSP" (JSON.str "12345") rfl rfl rfl rfl,
   C6_rg_resolution.2 _ _
     [("Result", JSON.arr [JSON.obj [("BasicData",
        JSON.obj [("AlternativeIdNumbers", JSON.obj [])])]])]
     [("BasicData", JSON.obj [("AlternativeIdNumbers", JSON.obj [])])]
     [("AlternativeIdNumbers", JSON.obj [])] [] rfl rfl rfl rfl⟩

/-- Response text with
`RegistrationData.Phones.Primary = {"AreaCode": "11", "Number": "987654321"}`. -/
def bodyPhonePrimary : String :=
  "\x7b\"Result\": [\x7b\"RegistrationData\": \x7b\"Phones\": \x7b\"Primary\": \x7b\"AreaCode\": \"11\", \"Number\": \"987654321\"\x7d\x7d\x7d\x7d]\x7d"

/-- Response text with `RegistrationData.Phones = {}` (no `Primary`). -/
def bodyPhonesEmpty : String :=
  "\x7b\"Result\": [\x7b\"RegistrationData\": \x7b\"Phones\": \x7b\x7d\x7d\x7d]\x7d"

/-- C7: `get_telefone "Primary"` concatenates `AreaCode` and `Number` with
no separator — `{"AreaCode": "11", "Number": "987654321"}` yields
`"11987654321"` — and a missing `Primary` key yields `""` (both parts
default to the empty string and are concatenated anyway). -/
theorem C7_phone_resolution :
    (∀ (api : BigDataCorpAPI) (doc : String) (js r0 rd ph : List (String × JSON))
        (rest : List JSON),
      json_loads (BigDataCorpAPI.make_request api doc "registration_data") =
        Except.ok (JSON.obj js) →
      List.lookup "Result" js = some (JSON.arr (JSON.obj r0 :: rest)) →
      List.lookup "RegistrationData" r0 = some (JSON.obj rd) →
      List.lookup "Phones" rd = some (JSON.obj ph) →
      List.lookup "Primary" ph =
        some (JSON.obj [("AreaCode", JSON.str "11"), ("Number", JSON.str "987654321")]) →
      get_telefone "Primary" doc api = Except.ok (JSON.str "11987654321")) ∧
    (∀ (api : BigDataCorpAPI) (doc : String) (js r0 rd ph : List (String × JSON))
        (rest : List JSON),
      json_loads (BigDataCorpAPI.make_request api doc "registration_data") =
        Except.ok (JSON.obj js) →
      List.lookup "Result" js = some (JSON.arr (JSON.obj r0 :: rest)) →
      List.lookup "RegistrationData" r0 = some (JSON.obj rd) →
      List.lookup "Phones" rd = some (JSON.obj ph) →
      List.lookup "Primary" ph = none →
      get_telefone "Primary" doc api = Except.ok (JSON.str "")) := by
  constructor <;>
  · intro api doc js r0 rd ph rest hdec hres hrd hph hpr
    simp only [get_telefone, hdec, hres, hrd, hph, hpr, excOkBind, excErrBind, JSON.get,
      JSON.getItem0, Option.getD]
    rfl

/-- Witness for C7 at concrete response bodies. -/
theorem C7_phone_resolution_witness :
    get_telefone "Primary" "52998224725" (apiConst bodyPhonePrimary) =
      Except.ok (JSON.str "11987654321") ∧
    get_telefone "Primary" "52998224725" (apiConst bodyPhonesEmpty) =
      Except.ok (JSON.str "") :=
  ⟨C7_phone_resolution.1 _ _
     [("Result", JSON.arr [JSON.obj [("RegistrationData", JSON.obj [("Phones",
        JSON.obj [("Primary",
          JSON.obj [("AreaCode", JSON.str "11"), ("Number", JSON.str "987654321")])])])]])]
     [("RegistrationData", JSON.obj [("Phones", JSON.obj [("Primary",
        JSON.obj [("AreaCode", JSON.str "11"), ("Number", JSON.str "987654321")])])])]
     [("Phones", JSON.obj [("Primary",
        JSON.obj [("AreaCode", JSON.str "11"), ("Number", JSON.str "987654321")])])]
     [("Primary", JSON.obj [("AreaCode", JSON.str "11"), ("Number", JSON.str "987654321")])]
     [] rfl rfl rfl rfl rfl,
   C7_phone_resolution.2 _ _
     [("Result", JSON.arr [JSON.obj [("RegistrationData", JSON.obj [("Phones", JSON.obj [])])]])]
     [("RegistrationData", JSON.obj [("Phones", JSON.obj [])])]
     [("Phones", JSON.obj [])] [] [] rfl rfl rfl rfl rfl⟩

/-- C8: for a row whose target cell is null, with a resolver registered
under the column's key that returns a (fixed) string, the generic field
filler returns exactly that string. -/
theorem C8_null_cell_filled_with_resolver_value :
    ∀ (row : Row) (registro : String) (api : BigDataCorpAPI)
      (func : String → BigDataCorpAPI → Except PyExc JSON) (s : String),
      row.cells registro = none →
      List.lookup registro FUNC_MAP = some func →
      func row.cpf api = Except.ok (JSON.str s) →
      preencher_registro_vazio row registro registro api =
        Except.ok (some (JSON.str s)) := by
  intro row registro api func s h hl hf
  simp [preencher_registro_vazio, h, hl, hf, pyAdd, excOkBind, excErrBind]

/-- Witness for C8: `get_sexo` against an always-failing transport returns
the fixed string `""`, and the filler returns exactly it. -/
theorem C8_null_cell_filled_with_resolver_value_witness :
    preencher_registro_vazio rowNull "SEXO" "SEXO" apiExn =
      Except.ok (some (JSON.str "")) :=
  C8_null_cell_filled_with_resolver_value rowNull "SEXO" apiExn get_sexo "" rfl rfl rfl

/-- C9: for a null target cell and a selector key with no registered
resolver in `FUNC_MAP`, the generic field filler returns the existing
(null) cell value unchanged and performs no resolver invocation, hence no
network call. -/
theorem C9_unregistered_key_passthrough :
    ∀ (row : Row) (registro funcao : String) (api : BigDataCorpAPI),
      row.cells registro = none →
      List.lookup funcao FUNC_MAP = none →
      preencher_registro_vazio row registro funcao api = Except.ok none ∧
      preencher_registro_vazio_calls row registro funcao api = 0 := by
  intro row registro funcao api h hl
  constructor
  · simp [preencher_registro_vazio, h, hl]
  · simp [preencher_registro_vazio_calls, h, hl]

/-- Witness for C9: `"TELEFONE1"` is not a key of `FUNC_MAP`. -/
theorem C9_unregistered_key_passthrough_witness :
    preencher_registro_vazio rowNull "TELEFONE1" "TELEFONE1" apiExn = Except.ok none ∧
    preencher_registro_vazio_calls rowNull "TELEFONE1" "TELEFONE1" apiExn = 0 :=
  C9_unregistered_key_passthrough rowNull "TELEFONE1" "TELEFONE1" apiExn rfl rfl

/-- Response text whose `Phones` mapping has the empty string as a key. -/
def bodyPhoneEmptyKey : String :=
  "\x7b\"Result\": [\x7b\"RegistrationData\": \x7b\"Phones\": \x7b\"\": \x7b\"AreaCode\": \"1\", \"Number\": \"2\"\x7d\x7d\x7d\x7d]\x7d"

/-- C10 counterexample: the claim's "(for any response) yields \"\"" is
false — a response whose `Phones` mapping does contain an empty-string key
makes `get_telefone ""` return that entry's concatenated parts, so the
unknown order tag `"X"` overwrites a null `TELEFONE1` with `"12"`, not
`""`. -/
theorem C10_counterexample_unknown_order_not_always_empty :
    preencher_telefone_vazio rowNull "X" (apiConst bodyPhoneEmptyKey) =
      Except.ok (some (JSON.str "12")) ∧
    (Except.ok (some (JSON.str "12")) : Except PyExc (Option JSON)) ≠
      Except.ok (some (JSON.str "")) := by
  refine ⟨rfl, ?_⟩
  intro hcontra
  simp only [Except.ok.injEq, Option.some.injEq, JSON.str.injEq] at hcontra
  exact absurd hcontra (by decide)

/-- C10 (amended): for any order tag other than `'P'` or `'S'`, the phone
filler falls back to `('', 1)`: it reads and targets column `TELEFONE1`,
and when that cell is null it calls `get_telefone` with the empty order
string, which yields `""` for any navigable response whose `Phones`
mapping has no empty-string key — so an unknown order tag overwrites a
null `TELEFONE1` with `""` rather than raising or being rejected. -/
theorem C10_amended_unknown_order_defaults :
    ∀ (row : Row) (order : String) (api : BigDataCorpAPI)
      (js r0 rd ph : List (String × JSON)) (rest : List JSON),
      order ≠ "P" → order ≠ "S" →
      row.cells "TELEFONE1" = none →
      json_loads (BigDataCorpAPI.make_request api row.cpf "registration_data") =
        Except.ok (JSON.obj js) →
      List.lookup "Result" js = some (JSON.arr (JSON.obj r0 :: rest)) →
      List.lookup "RegistrationData" r0 = some (JSON.obj rd) →
      List.lookup "Phones" rd = some (JSON.obj ph) →
      List.lookup "" ph = none →
      preencher_telefone_vazio row order api = Except.ok (some (JSON.str "")) := by
  intro row order api js r0 rd ph rest hP hS hcell hdec hres hrd hph hstr
  have h1 : (order == "P") = false := beq_eq_false_iff_ne.mpr hP
  have h2 : (order == "S") = false := beq_eq_false_iff_ne.mpr hS
  have hom : order_map_get order = ("", 1) := by
    simp [order_map_get, List.lookup, h1, h2]
  have htel : get_telefone "" row.cpf api = Except.ok (JSON.str "") := by
    simp only [get_telefone, hdec, hres, hrd, hph, hstr, excOkBind, excErrBind,
      JSON.get, JSON.getItem0, Option.getD]
    rfl
  have hcol : "TELEFONE" ++ toString (1 : Nat) = "TELEFONE1" := rfl
  simp [preencher_telefone_vazio, hom, hcol, hcell, htel]

/-- Witness for C10 (amended): order tag `"X"`, null `TELEFONE1`, and a
response whose `Phones` has only a `"Primary"` key. -/
theorem C10_amended_unknown_order_defaults_witness :
    preencher_telefone_vazio rowNull "X" (apiConst bodyPhonePrimary) =
      Except.ok (some (JSON.str "")) :=
  C10_amended_unknown_order_defaults rowNull "X" (apiConst bodyPhonePrimary)
    [("Result", JSON.arr [JSON.obj [("RegistrationData", JSON.obj [("Phones",
       JSON.obj [("Primary",
         JSON.obj [("AreaCode", JSON.str "11"), ("Number", JSON.str "987654321")])])])]])]
    [("RegistrationData", JSON.obj [("Phones", JSON.obj [("Primary",
       JSON.obj [("AreaCode", JSON.str "11"), ("Number", JSON.str "987654321")])])])]
    [("Phones", JSON.obj [("Primary",
       JSON.obj [("AreaCode", JSON.str "11"), ("Number", JSON.str "987654321")])])]
    [("Primary", JSON.obj [("AreaCode", JSON.str "11"), ("Number", JSON.str "987654321")])]
    [] (by decide) (by decide) rfl rfl rfl rfl rfl rfl
